import Mathlib

/-!
Shallow embedding of the orbit-sentinel backend (Python) in Lean 4.

Modelling conventions, used throughout:
* Python `float` values are modelled as exact rationals (`ℚ`); the binary
  rounding of IEEE doubles is not modelled.  All constants appearing in the
  source (`0.1`, `1.5`, ...) are taken at their decimal value.
* `float('inf')` (the initial `closest_distance` of the collision scan) is
  modelled by `Option ℚ` with `none` standing for the infinity: every
  comparison `d <= c` against a finite threshold is false for it, and
  `distance < closest_distance` always succeeds against it.
* Python `datetime` values (always timezone-aware UTC where they matter)
  are modelled as rational seconds since 1970-01-01T00:00:00Z, using exact
  proleptic-Gregorian day arithmetic (`daysFromCivil`).
* Fallible operations are `Option`-valued; a `try/except` that swallows the
  error and substitutes a default becomes `Option.getD`.
* External effects (the sgp4 distance routine, HTTP traffic, login outcome)
  are parameters of the functions that use them, so every definition stays
  executable.
-/

/-! ### Python string / number primitives

All string manipulation is defined structurally over `String.toList`, by
code point, mirroring Python `str` semantics (and keeping every definition
computable by plain reduction). -/

/-- Python slice `s[a:b]` on a string (by code point, clamped like Python). -/
def pySlice (s : String) (a b : Nat) : String :=
  String.mk ((s.toList.drop a).take (b - a))

/-- Python slice `s[a:]`. -/
def pySliceFrom (s : String) (a : Nat) : String :=
  String.mk (s.toList.drop a)

/-- The ASCII whitespace stripped by Python's `str.strip()` (the further
Unicode whitespace Python strips never occurs in this data). -/
def pyIsSpace (c : Char) : Bool :=
  c = ' ' ∨ c = '\t' ∨ c = '\n' ∨ c = '\r' ∨ c = '\x0b' ∨ c = '\x0c'

/-- Python `s.strip()`. -/
def pyStrip (s : String) : String :=
  String.mk (((s.toList.dropWhile pyIsSpace).reverse.dropWhile pyIsSpace).reverse)

/-- Helper for `pySplitNl`: split a character list at `'\n'`, keeping empty
pieces, exactly like Python's `str.split('\n')`. -/
def splitNlAux : List Char → List Char → List String
  | [], acc => [String.mk acc.reverse]
  | c :: cs, acc =>
      if c = '\n' then String.mk acc.reverse :: splitNlAux cs []
      else splitNlAux cs (c :: acc)

/-- Python `s.split('\n')`: empty pieces (from consecutive or leading or
trailing newlines) are kept. -/
def pySplitNl (s : String) : List String :=
  splitNlAux s.toList []

/-- Python `s.startswith(pre)`. -/
def pyStartsWith (s pre : String) : Bool :=
  pre.toList.isPrefixOf s.toList

/-- Decimal value of a digit list (most significant first). -/
def digitsVal (cs : List Char) : Nat :=
  cs.foldl (fun a c => a * 10 + (c.toNat - 48)) 0

/-- Python `int(s)` on a string: strips whitespace, optional sign, then a
nonempty run of decimal digits.  (Underscore separators and non-ASCII
digits, which Python also accepts, do not occur in TLE fields and are not
modelled.) -/
def pyInt? (s : String) : Option ℤ :=
  let t := (pyStrip s).toList
  let signSplit : Bool × List Char :=
    match t with
    | '-' :: r => (true, r)
    | '+' :: r => (false, r)
    | _ => (false, t)
  if signSplit.2 ≠ [] ∧ signSplit.2.all (·.isDigit) then
    some (if signSplit.1 then -(digitsVal signSplit.2 : ℤ) else digitsVal signSplit.2)
  else none

/-- The exact rational value of the decimal literal `ip.fp` (integer digits
`ip`, fraction digits `fp`), negated when `neg` is set. -/
def decimalVal (neg : Bool) (ip fp : List Char) : ℚ :=
  let v : ℚ := mkRat (digitsVal ip * 10 ^ fp.length + digitsVal fp) (10 ^ fp.length)
  if neg then -v else v

/-- Python `float(s)` restricted to plain decimal literals
(`[sign] digits [. digits]` or `[sign] . digits`), the only forms that occur
in TLE columns; exponent/`inf`/`nan` forms are not modelled.  The result is
the exact decimal value (IEEE rounding is not modelled, per the conventions
above). -/
def pyFloat? (s : String) : Option ℚ :=
  let t := (pyStrip s).toList
  let signSplit : Bool × List Char :=
    match t with
    | '-' :: r => (true, r)
    | '+' :: r => (false, r)
    | _ => (false, t)
  let ip := signSplit.2.takeWhile (·.isDigit)
  let rest := signSplit.2.dropWhile (·.isDigit)
  match rest with
  | [] => if ip = [] then none else some (decimalVal signSplit.1 ip [])
  | '.' :: fp =>
      if fp.all (·.isDigit) ∧ ¬(ip = [] ∧ fp = []) then
        some (decimalVal signSplit.1 ip fp)
      else none
  | _ => none

/-- Days from 1970-01-01 to the proleptic-Gregorian date `(y, m, d)`
(Howard Hinnant's civil-days algorithm, as used by every date library;
this is exactly what `datetime(year, 1, 1) + timedelta(...)` computes with). -/
def daysFromCivil (y : ℤ) (m d : ℕ) : ℤ :=
  let yAdj : ℤ := if m ≤ 2 then y - 1 else y
  let era : ℤ := Int.fdiv yAdj 400
  let yoe : ℤ := yAdj - era * 400
  let mp : ℕ := (m + 9) % 12
  let doy : ℕ := (153 * mp + 2) / 5 + d - 1
  let doe : ℤ := yoe * 365 + Int.fdiv yoe 4 - Int.fdiv yoe 100 + (doy : ℤ)
  era * 146097 + doe - 719468

/-- Seconds since the epoch of midnight UTC on a civil date.  (Written with
`mkRat` so that it evaluates by reduction; `civilSec_def` below gives the
arithmetic reading.) -/
def civilSec (y : ℤ) (m d : ℕ) : ℚ :=
  mkRat (daysFromCivil y m d * 86400) 1

theorem civilSec_def (y : ℤ) (m d : ℕ) :
    civilSec y m d = (daysFromCivil y m d : ℚ) * 86400 := by
  rw [civilSec, Rat.mkRat_eq_div]
  push_cast
  ring

/-! ### collision_detection.py — `CollisionDetectionService`

Risk thresholds (`__init__`): critical 5 km, high 25 km, medium 100 km,
low 500 km. -/

/-- A possibly-infinite distance (`none` = `float('inf')`) compared against a
finite threshold: `inf <= c` is false. -/
def distLe (d : Option ℚ) (c : ℚ) : Bool :=
  match d with
  | none => false
  | some x => decide (x ≤ c)

/-- Transcribes `if distance < closest_distance: closest_distance = distance`, with the
accumulator starting at `float('inf')` (`none`). -/
def updMin (acc : Option ℚ) (d : ℚ) : Option ℚ :=
  match acc with
  | none => some d
  | some c => if d < c then some d else acc

/-- Transcribes `_calculate_risk_level` (collision_detection.py lines 105-114). -/
def calcRiskLevel (closest : Option ℚ) : String :=
  if distLe closest 5 then "CRITICAL"
  else if distLe closest 25 then "HIGH"
  else if distLe closest 100 then "MEDIUM"
  else "LOW"

/-- Transcribes `_calculate_collision_probability` (lines 116-166).  The `try/except`
is dead in this pure transcription (no operation below can raise). -/
def calcCollisionProbability (closest : Option ℚ) (nearbyCount : ℕ)
    (objectType : String) : ℚ :=
  let base : ℚ :=
    if distLe closest 5 then 25
    else if distLe closest 25 then 10
    else if distLe closest 100 then 2
    else if distLe closest 500 then 1/10
    else 1/100
  let density : ℚ := 1 + (nearbyCount : ℚ) * (1/10)
  let typeMult : ℚ :=
    if objectType = "DEBRIS" then 3/2
    else if objectType = "ROCKET_BODY" then 6/5
    else 1
  min (base * density * typeMult) 100

/-- Transcribes `RiskAssessment` (models/satellite.py). -/
structure RiskAssessment where
  collision_risk_level : String
  collision_probability : ℚ
  nearby_objects_count : ℕ
  closest_approach_km : Option ℚ
  debris_environment_score : ℚ
  deriving DecidableEq, Repr

/-- Transcribes `SatelliteData` (models/satellite.py), restricted to the fields the
services below read.  `object_type` holds the enum's `.value` string;
`altitude` flattens `orbital.altitude` (`none` = orbital data or altitude
absent); `line1`/`line2` use `""` for a missing line (Python falsiness of
an empty string). -/
structure SatelliteData where
  name : String
  norad_id : ℤ
  line1 : String
  line2 : String
  object_type : String
  altitude : Option ℚ
  risk : Option RiskAssessment
  deriving DecidableEq, Repr

/-- One entry of the `nearby_objects` list built by `assess_collision_risk`. -/
structure NearbyObject where
  norad_id : ℤ
  name : String
  distance_km : ℚ
  object_type : String
  deriving DecidableEq, Repr

/-- Transcribes `_calculate_debris_environment_score` (lines 168-217).  The altitude
branch runs only when `satellite.orbital and satellite.orbital.altitude`
is truthy, i.e. altitude present and nonzero. -/
def calcDebrisEnvironmentScore (sat : SatelliteData)
    (nearby : List NearbyObject) : ℚ :=
  let altScore : ℚ :=
    match sat.altitude with
    | none => 0
    | some a =>
        if a ≠ 0 then
          if 400 ≤ a ∧ a ≤ 600 then 30
          else if 700 ≤ a ∧ a ≤ 900 then 20
          else if 35000 ≤ a then 25
          else 10
        else 0
  let debrisCount := (nearby.filter (fun o => o.object_type = "DEBRIS")).length
  let rocketCount := (nearby.filter (fun o => o.object_type = "ROCKET_BODY")).length
  let veryClose := (nearby.filter (fun o => decide (o.distance_km ≤ 50))).length
  min (altScore + (debrisCount : ℚ) * 3 + (rocketCount : ℚ) * 2
        + (nearby.length : ℚ) * 1 + (veryClose : ℚ) * 5) 100

/-- Loop body of the distance scan in `assess_collision_risk` (lines 47-74):
skip self, skip objects without TLE lines, skip failed distance
computations; otherwise track the minimum and append to `nearby_objects`
when `distance <= 500`. -/
def assessStep (dist : SatelliteData → SatelliteData → Option ℚ)
    (sat : SatelliteData) (acc : Option ℚ × List NearbyObject)
    (other : SatelliteData) : Option ℚ × List NearbyObject :=
  if other.norad_id = sat.norad_id then acc
  else if other.line1 = "" ∨ other.line2 = "" then acc
  else
    match dist sat other with
    | none => acc
    | some d =>
        (updMin acc.1 d,
         if distLe (some d) 500 then
           acc.2 ++ [⟨other.norad_id, other.name, d, other.object_type⟩]
         else acc.2)

/-- Transcribes `assess_collision_risk` (lines 23-103).  The sgp4-backed
`orbital_service.calculate_distance_between_satellites` is the parameter
`dist` (`none` = it returned `None`).  Returns `none` when the target has
no TLE lines; `closest_approach_km` is `none` exactly when the scan left
`closest_distance` at `float('inf')`. -/
def assessCollisionRisk (dist : SatelliteData → SatelliteData → Option ℚ)
    (sat : SatelliteData) (all : List SatelliteData) : Option RiskAssessment :=
  if sat.line1 = "" ∨ sat.line2 = "" then none
  else
    let scan := all.foldl (assessStep dist sat) (none, [])
    some { collision_risk_level := calcRiskLevel scan.1
           collision_probability :=
             calcCollisionProbability scan.1 scan.2.length sat.object_type
           nearby_objects_count := scan.2.length
           closest_approach_km := scan.1
           debris_environment_score := calcDebrisEnvironmentScore sat scan.2 }

/-- Transcribes `predict_conjunction_events` (lines 246-289): sample the distance at
whole-hour offsets `0, 1, ..., hoursAhead-1` (`range(0, hours_ahead, 1)`);
the guard `if distance and distance <= 100` emits an event only when the
distance computed (`dist h ≠ none`), is nonzero (Python falsiness of
`0.0`), and is at most the medium threshold.  An event is
`(hour offset, distance_km, risk_level)`. -/
def predictConjunctionEvents (dist : ℕ → Option ℚ) (hoursAhead : ℤ) :
    List (ℕ × ℚ × String) :=
  (List.range hoursAhead.toNat).filterMap fun h =>
    match dist h with
    | none => none
    | some d =>
        if d ≠ 0 ∧ d ≤ 100 then some (h, d, calcRiskLevel (some d)) else none

/-! ### satellite_service.py — TLE parsing -/

/-- The epoch value `base_date + timedelta(days = day_part - 1)` of
`_parse_tle_epoch`, as seconds since 1970-01-01T00:00:00Z.  Written as a
single `mkRat` over the day fraction's numerator and denominator so that it
evaluates by reduction; `tleEpochSeconds_def` proves it equal to the
textbook formula `Jan 1 of year + (d - 1) days`. -/
def tleEpochSeconds (year : ℤ) (d : ℚ) : ℚ :=
  mkRat (daysFromCivil year 1 1 * 86400 * (d.den : ℤ) + (d.num - (d.den : ℤ)) * 86400) d.den

theorem tleEpochSeconds_def (year : ℤ) (d : ℚ) :
    tleEpochSeconds year d = civilSec year 1 1 + (d - 1) * 86400 := by
  rw [tleEpochSeconds, civilSec_def, Rat.mkRat_eq_div]
  have hd : ((d.den : ℚ)) ≠ 0 := Nat.cast_ne_zero.mpr d.den_nz
  have hnum : (d.num : ℚ) = d * (d.den : ℚ) := (div_eq_iff hd).mp (Rat.num_div_den d)
  field_simp
  rw [hnum]
  ring

/-- Lower bound of Python's `datetime` range (0001-01-01T00:00:00), in
seconds since 1970. -/
def datetimeMinSec : ℚ := civilSec 1 1 1

/-- Upper bound of Python's `datetime` range, as the exclusive day boundary
10000-01-01T00:00:00 (the true bound 9999-12-31T23:59:59.999999 differs by
under a microsecond, which this model does not resolve). -/
def datetimeMaxSec : ℚ := civilSec 10000 1 1

/-- Transcribes `_parse_tle_epoch` (satellite_service.py lines 308-332): two-digit year
(`< 57` → `2000+yy`, else `1900+yy`) and 1-based fractional day of year,
mapped to `datetime(year, 1, 1) + timedelta(days = day_part - 1)`.
`none` models every failure path (unparseable fields, or a result outside
`datetime`'s range); in the source the failure is swallowed and
`datetime.now()` substituted — the caller `acceptPair` applies that
substitution via `Option.getD`. -/
def parseTleEpoch (s : String) : Option ℚ :=
  match pyInt? (pySlice s 0 2), pyFloat? (pySliceFrom s 2) with
  | some yy, some d =>
      let year : ℤ := if yy < 57 then 2000 + yy else 1900 + yy
      let t : ℚ := tleEpochSeconds year d
      if datetimeMinSec ≤ t ∧ t < datetimeMaxSec then some t else none
  | _, _ => none

/-- One parsed TLE record, the dict built by `_parse_tle_data`
(satellite_service.py lines 241-247). -/
structure TleRecord where
  name : String
  norad_id : ℤ
  line1 : String
  line2 : String
  epoch : ℚ
  deriving DecidableEq, Repr

/-- The `known_satellites` table of `_get_satellite_name` (lines 261-273). -/
def knownSatelliteName? (norad : ℤ) : Option String :=
  if norad = 25544 then some "ISS (ZARYA)"
  else if norad = 20580 then some "HUBBLE SPACE TELESCOPE"
  else if norad = 25338 then some "NOAA 15"
  else if norad = 27424 then some "NOAA 16"
  else if norad = 28654 then some "NOAA 18"
  else if norad = 33591 then some "NOAA 19"
  else if norad = 43013 then some "NOAA 20"
  else if norad = 5 then some "VANGUARD 2"
  else if norad = 11 then some "SCORE"
  else if norad = 16 then some "EXPLORER 6"
  else if norad = 29 then some "ECHO 1"
  else none

/-- Transcribes `_get_satellite_name` (lines 258-306): known-satellite lookup, then a
classification from inclination (`line2[8:16]`) and mean motion
(`line2[52:63]`); any parse failure falls back to `SATELLITE-{id}` (the
bare `except`).  The source also receives `line1` and never reads it. -/
def getSatelliteName (norad : ℤ) (_line1 line2 : String) : String :=
  match knownSatelliteName? norad with
  | some n => n
  | none =>
      match pyFloat? (pyStrip (pySlice line2 8 16)),
            pyFloat? (pyStrip (pySlice line2 52 63)) with
      | some inc, some mm =>
          if 95 < inc ∧ inc < 105 then
            if 14 < mm then s!"LEO POLAR-{norad}" else s!"POLAR ORBIT-{norad}"
          else if inc < 10 then
            if mm < 2 then s!"GEO-{norad}" else s!"EQUATORIAL-{norad}"
          else if 50 < inc ∧ inc < 60 then s!"LEO CREW-{norad}"
          else s!"SATELLITE-{norad}"
      | _, _ => s!"SATELLITE-{norad}"

/-- The per-pair body of the `_parse_tle_data` loop (lines 212-249): strip
both lines, require the `"1 "`/`"2 "` prefixes, require the NORAD field
`line1[2:7]` to parse as an int, then build the record — an epoch parse
failure does not reject the pair, it substitutes `now`
(`datetime.now(timezone.utc)`). -/
def acceptPair (now : ℚ) (rawL1 rawL2 : String) : Option TleRecord :=
  let line1 := pyStrip rawL1
  let line2 := pyStrip rawL2
  if !pyStartsWith line1 "1 " || !pyStartsWith line2 "2 " then none
  else
    match pyInt? (pyStrip (pySlice line1 2 7)) with
    | none => none
    | some norad =>
        let epoch := (parseTleEpoch (pyStrip (pySlice line1 18 32))).getD now
        some { name := getSatelliteName norad line1 line2
               norad_id := norad
               line1 := line1
               line2 := line2
               epoch := epoch }

/-- The `for i in range(0, len(lines), 2)` loop of `_parse_tle_data`
(lines 205-249): stop when fewer than two lines remain (`i+1 >= len`) or
when `len(satellites) >= limit`; otherwise process a pair and continue, a
rejected pair contributing nothing. -/
def parseTlePairs (now : ℚ) (limit : ℤ) : List String → ℕ → List TleRecord
  | [], _ => []
  | [_], _ => []
  | l1 :: l2 :: rest, count =>
      if (count : ℤ) ≥ limit then []
      else
        match acceptPair now l1 l2 with
        | some r => r :: parseTlePairs now limit rest (count + 1)
        | none => parseTlePairs now limit rest count

/-- Transcribes `_parse_tle_data` (lines 198-256): `tle_text.strip().split('\n')`, then
the pair loop.  Total — the outer `try/except` path returning `[]` is
unreachable in this pure transcription.  `now` is the current time used
when an epoch fails to parse. -/
def parseTleData (now : ℚ) (text : String) (limit : ℤ) : List TleRecord :=
  parseTlePairs now limit (pySplitNl (pyStrip text)) 0

/-- Consecutive pairs of a list, dropping a trailing odd element. -/
def chunk2 {α : Type} : List α → List (α × α)
  | [] => []
  | [_] => []
  | a :: b :: rest => (a, b) :: chunk2 rest

/-- The spec's reading of the parser (used to compare against the code):
"Input is split into non-empty lines; records are taken two lines at a
time", accepted pairs kept in order, at most `limit` records. -/
def parseTleDataSpecReading (now : ℚ) (text : String) (limit : ℤ) : List TleRecord :=
  ((chunk2 ((pySplitNl (pyStrip text)).filter (· ≠ ""))).filterMap
    fun p => acceptPair now p.1 p.2).take limit.toNat

/-! ### satellite_service.py — the TLE cache

Timestamps are rational seconds, matching the `total_seconds()` float
comparison of `_is_cache_valid`. -/

/-- One value of `self._tle_cache` (satellite_service.py lines 56-62). -/
structure CacheEntry where
  data : List TleRecord
  timestamp : ℚ
  deriving DecidableEq, Repr

/-- Transcribes `self._cache_duration = 7200` (2 hours, satellite_service.py line 31). -/
def cacheDuration : ℚ := 7200

/-- The dict `self._tle_cache`, modelled as an association list where the
most recent binding of a key shadows older ones. -/
def lookupCache (cache : List (String × CacheEntry)) (key : String) :
    Option CacheEntry :=
  (cache.find? fun e => e.1 == key).map (·.2)

/-- Transcribes `_is_cache_valid` (lines 37-47).  The `if not cached_time` guard of the
source is dead here: every stored entry carries a timestamp, and Python
datetimes are always truthy. -/
def isCacheValid (cache : List (String × CacheEntry)) (key : String)
    (now : ℚ) : Bool :=
  match lookupCache cache key with
  | none => false
  | some e => decide (now - e.timestamp < cacheDuration)

/-- Transcribes `_get_cached_data` (lines 49-54). -/
def getCachedData (cache : List (String × CacheEntry)) (key : String)
    (now : ℚ) : Option (List TleRecord) :=
  if isCacheValid cache key now then (lookupCache cache key).map (·.data)
  else none

/-- Transcribes `_cache_data` (lines 56-62): store the records under the key with the
current time. -/
def cacheData (cache : List (String × CacheEntry)) (key : String)
    (data : List TleRecord) (now : ℚ) : List (String × CacheEntry) :=
  (key, ⟨data, now⟩) :: cache

/-- Transcribes `_get_cache_key` (lines 33-35). -/
def tleCacheKey (limit : ℤ) : String :=
  s!"tle_active_{limit}"

/-! ### space_track_auth.py — `SpaceTrackAuth`

Times are integer seconds (Python `datetime` arithmetic at whole-second
granularity; none of the rate-limit or session logic resolves
sub-second differences, `timedelta(hours=1)` is 3600 s, etc.). -/

/-- Transcribes `SpaceTrackConfig` (space_track_auth.py lines 16-24), without the URL. -/
structure SpaceTrackConfig where
  username : String
  password : String
  rate_limit_per_hour : ℕ
  rate_limit_per_minute : ℕ
  session_timeout_minutes : ℕ
  deriving DecidableEq, Repr

/-- The dataclass defaults: limits 300/hour and 30/minute, 30-minute
sessions (credentials empty when the environment variables are unset). -/
def defaultConfig : SpaceTrackConfig :=
  ⟨"", "", 300, 30, 30⟩

/-- The mutable fields of `SpaceTrackAuth` (lines 29-37).
`session_cookies` is the truthiness of the cookie dict. -/
structure AuthState where
  session_cookies : Bool
  session_expires : Option ℤ
  last_request_time : Option ℤ
  request_count_hour : ℕ
  request_count_minute : ℕ
  rate_limit_reset_hour : Option ℤ
  rate_limit_reset_minute : Option ℤ
  deriving DecidableEq, Repr

/-- The `__init__` state: no session, both counters zero, no reset times. -/
def initialAuthState : AuthState :=
  ⟨false, none, none, 0, 0, none, none⟩

/-- Transcribes `_check_rate_limits` (lines 64-87): lazily roll each window forward
(`if not reset or now >= reset`: zero the counter, set the reset time one
window ahead), then fail if either counter is at its ceiling; the check
itself never increments.  Returns the pass/fail flag and the updated
state. -/
def checkRateLimits (cfg : SpaceTrackConfig) (now : ℤ) (s : AuthState) :
    Bool × AuthState :=
  let s1 :=
    match s.rate_limit_reset_hour with
    | none => { s with request_count_hour := 0
                       rate_limit_reset_hour := some (now + 3600) }
    | some t =>
        if now ≥ t then
          { s with request_count_hour := 0
                   rate_limit_reset_hour := some (now + 3600) }
        else s
  let s2 :=
    match s1.rate_limit_reset_minute with
    | none => { s1 with request_count_minute := 0
                        rate_limit_reset_minute := some (now + 60) }
    | some t =>
        if now ≥ t then
          { s1 with request_count_minute := 0
                    rate_limit_reset_minute := some (now + 60) }
        else s1
  if s2.request_count_hour ≥ cfg.rate_limit_per_hour then (false, s2)
  else if s2.request_count_minute ≥ cfg.rate_limit_per_minute then (false, s2)
  else (true, s2)

/-- Transcribes `_is_session_valid` (lines 56-62). -/
def isSessionValid (now : ℤ) (s : AuthState) : Bool :=
  s.session_cookies &&
    match s.session_expires with
    | none => false
    | some e => decide (now < e)

/-- Transcribes `_check_credentials` (lines 49-54). -/
def checkCredentials (cfg : SpaceTrackConfig) : Bool :=
  !(cfg.username == "" || cfg.password == "")

/-- Transcribes `login` (lines 89-124).  `outcome` collapses the external HTTP exchange
(status 200 without an error page, no exception) into success-or-not; every
failure path of the source leaves the session state unchanged, and success
stores the cookies and a `session_timeout_minutes` expiry. -/
def login (cfg : SpaceTrackConfig) (now : ℤ) (s : AuthState)
    (outcome : Bool) : Bool × AuthState :=
  if !checkCredentials cfg then (false, s)
  else if outcome then
    (true, { s with session_cookies := true
                    session_expires :=
                      some (now + (cfg.session_timeout_minutes : ℤ) * 60) })
  else (false, s)

/-- An HTTP response, as much of it as `query_tle_data` inspects. -/
structure HttpResponse where
  status : ℕ
  text : String
  deriving DecidableEq, Repr

/-- Transcribes `query_tle_data` (lines 126-196): rate-limit pre-check (abort on
failure), session check with re-login (abort on failure), then the catalog
request.  `httpResult = none` models `client.get` raising before any
response; with a response, both counters are incremented and
`last_request_time` set *before* the status is examined.  Status 200 with a
stripped body longer than 100 characters returns the body (the source's
`content and len(content) > 100`— nonemptiness is implied by the length);
401 additionally drops the session; anything else just returns `None`. -/
def queryTleData (cfg : SpaceTrackConfig) (now : ℤ) (s : AuthState)
    (loginOutcome : Bool) (httpResult : Option HttpResponse) :
    Option String × AuthState :=
  let checkRes := checkRateLimits cfg now s
  if !checkRes.1 then (none, checkRes.2)
  else
    let s1 := checkRes.2
    let loginRes :=
      if isSessionValid now s1 then (true, s1) else login cfg now s1 loginOutcome
    if !loginRes.1 then (none, loginRes.2)
    else
      let s2 := loginRes.2
      match httpResult with
      | none => (none, s2)
      | some r =>
          let s3 := { s2 with request_count_hour := s2.request_count_hour + 1
                              request_count_minute := s2.request_count_minute + 1
                              last_request_time := some now }
          if r.status = 200 then
            let content := pyStrip r.text
            if 100 < content.length then (some content, s3) else (none, s3)
          else if r.status = 401 then
            (none, { s3 with session_cookies := false, session_expires := none })
          else (none, s3)

/-! ### satellite_service.py — the aggregation pipeline -/

/-- Python list slice `l[:n]` (a negative `n` counts from the end). -/
def pyListTake {α : Type} (l : List α) (n : ℤ) : List α :=
  if 0 ≤ n then l.take n.toNat else l.take ((l.length : ℤ) + n).toNat

/-- Transcribes `_fetch_tle_data` (satellite_service.py lines 165-196): `queryResult` is
what `space_track.query_tle_data` returned; `None` (gateway, auth or quota
failure) and exceptions degrade to `[]`, otherwise the text is parsed. -/
def fetchTleData (now : ℚ) (queryResult : Option String) (limit : ℤ) :
    List TleRecord :=
  match queryResult with
  | none => []
  | some t => parseTleData now t limit

/-- Transcribes `SatelliteResponse` (models/satellite.py), minus the space-weather
summary (externally fetched and never inspected by these claims). -/
structure SatelliteResponse where
  satellites : List SatelliteData
  total_count : ℕ
  high_risk_satellites : List ℤ
  deriving DecidableEq, Repr

/-- Transcribes `get_active_satellites` (lines 64-163).  `enhance` models the per-record
`SatelliteData` construction plus orbital-data computation (its `except`
skips the record); `dist` is the sgp4 distance oracle used by the collision
assessment; `includeRisk` is `include_collision_risk`.  The source's
concurrent `_assess_collision_risks` only reads the TLE fields of the
shared list while writing the independent `risk` fields, so the sequential
`map` is equivalent.  Returns the response (`none` when no satellite data
was available) and the updated cache. -/
def getActiveSatellites (cache : List (String × CacheEntry)) (now : ℚ)
    (queryResult : Option String) (limit : ℤ)
    (enhance : TleRecord → Option SatelliteData)
    (dist : SatelliteData → SatelliteData → Option ℚ)
    (includeRisk : Bool) :
    Option SatelliteResponse × List (String × CacheEntry) :=
  let key := tleCacheKey limit
  let cached := getCachedData cache key now
  let fetchPair : List TleRecord × List (String × CacheEntry) :=
    let fetched := fetchTleData now queryResult limit
    (fetched, if fetched ≠ [] then cacheData cache key fetched now else cache)
  let satPair : List TleRecord × List (String × CacheEntry) :=
    match cached with
    | some l => if l ≠ [] then (pyListTake l limit, cache) else fetchPair
    | none => fetchPair
  if satPair.1 = [] then (none, satPair.2)
  else
    let enhanced := (pyListTake satPair.1 limit).filterMap enhance
    let assessed :=
      if includeRisk ∧ 1 < enhanced.length then
        enhanced.map fun s => { s with risk := assessCollisionRisk dist s enhanced }
      else enhanced
    let highRisk := ((assessed.filter fun s =>
        match s.risk with
        | some ra =>
            ra.collision_risk_level == "HIGH" ||
              ra.collision_risk_level == "CRITICAL"
        | none => false).map (·.norad_id))
    (some { satellites := assessed
            total_count := assessed.length
            high_risk_satellites := highRisk }, satPair.2)

/-! ### Derived views used by the statements below -/

/-- The `satellites` variable of `get_active_satellites` after the
cache-or-fetch step: the cached list (sliced to `limit`) when the cache
holds a valid nonempty entry, otherwise whatever the fetch produced. -/
def satellitesObtained (cache : List (String × CacheEntry)) (now : ℚ)
    (queryResult : Option String) (limit : ℤ) : List TleRecord :=
  match getCachedData cache (tleCacheKey limit) now with
  | some l => if l ≠ [] then pyListTake l limit else fetchTleData now queryResult limit
  | none => fetchTleData now queryResult limit

/-- The distances `assess_collision_risk` actually computes for a target:
one per comparison object that is not the target itself, has both TLE
lines, and whose distance computation succeeds, in scan order. -/
def relevantDistances (dist : SatelliteData → SatelliteData → Option ℚ)
    (sat : SatelliteData) (all : List SatelliteData) : List ℚ :=
  all.filterMap fun o =>
    if o.norad_id = sat.norad_id then none
    else if o.line1 = "" ∨ o.line2 = "" then none
    else dist sat o

/-- The `closest_distance` the scan ends with (`none` = still `inf`). -/
def closestOf (dist : SatelliteData → SatelliteData → Option ℚ)
    (sat : SatelliteData) (all : List SatelliteData) : Option ℚ :=
  (relevantDistances dist sat all).foldl updMin none

/-- Runs `n` successive `_check_rate_limits` calls at a fixed time, stopping at
the first failure: returns whether all passed, and the final state. -/
def iterChecks (cfg : SpaceTrackConfig) (now : ℤ) :
    ℕ → AuthState → Bool × AuthState
  | 0, s => (true, s)
  | n + 1, s =>
      let c := checkRateLimits cfg now s
      if c.1 then iterChecks cfg now n c.2 else (false, c.2)

/-- Runs `n` successive `query_tle_data` calls at a fixed time, each offered a
successful login and the same HTTP response. -/
def iterQueries (cfg : SpaceTrackConfig) (now : ℤ) (r : HttpResponse) :
    ℕ → AuthState → AuthState
  | 0, s => s
  | n + 1, s => iterQueries cfg now r n (queryTleData cfg now s true (some r)).2

/-! ## Theorems -/

/-! ### C6 — collision probability formula and clamp -/

/-- Claim C6, counterexample: The claim says the probability *equals*
`base × (1 + 0.1·nearby) × type multiplier`; at distance 3 km with 40
nearby objects the product is 125 but the code returns 100 (the
`min(..., 100.0)` cap), so the unclamped equality is false. -/
theorem c6_counterexample :
    calcCollisionProbability (some 3) 40 "PAYLOAD" = 100 ∧
    (25 : ℚ) * (1 + (40 : ℚ) * (1/10)) * 1 = 125 ∧
    (100 : ℚ) ≠ 125 := by
  refine ⟨?_, by norm_num, by norm_num⟩
  simp [calcCollisionProbability, distLe]
  norm_num [min_def]

/-- Claim C6, amended: For every distance bracket, nearby count and object
type, the probability is the *clamped* product
`min(base × (1 + 0.1·nearby) × type multiplier, 100)` with the claimed
bracket bases (≤5→25, ≤25→10, ≤100→2, ≤500→0.1, else 0.01 — the `else`
includes the no-neighbor `inf` case) and type multipliers (DEBRIS 1.5,
ROCKET_BODY 1.2, else 1.0), and the result always lies within [0, 100]. -/
theorem c6_probability (closest : Option ℚ) (n : ℕ) (t : String) :
    (0 ≤ calcCollisionProbability closest n t ∧
      calcCollisionProbability closest n t ≤ 100) ∧
    (∀ x, closest = some x →
      calcCollisionProbability closest n t =
        min ((if x ≤ 5 then (25 : ℚ) else if x ≤ 25 then 10 else if x ≤ 100 then 2
              else if x ≤ 500 then 1/10 else 1/100) *
             (1 + (n : ℚ) * (1/10)) *
             (if t = "DEBRIS" then 3/2 else if t = "ROCKET_BODY" then 6/5 else 1))
          100) ∧
    (closest = none →
      calcCollisionProbability closest n t =
        min ((1/100 : ℚ) * (1 + (n : ℚ) * (1/10)) *
             (if t = "DEBRIS" then 3/2 else if t = "ROCKET_BODY" then 6/5 else 1))
          100) := by
  refine ⟨⟨?_, ?_⟩, ?_, ?_⟩
  · simp only [calcCollisionProbability]
    refine le_min ?_ (by norm_num)
    have hb : (0:ℚ) ≤
        (if distLe closest 5 then (25:ℚ) else if distLe closest 25 then 10
         else if distLe closest 100 then 2 else if distLe closest 500 then 1/10
         else 1/100) := by
      split_ifs <;> norm_num
    have hm : (0:ℚ) ≤
        (if t = "DEBRIS" then (3/2 : ℚ) else if t = "ROCKET_BODY" then 6/5 else 1) := by
      split_ifs <;> norm_num
    have hd : (0:ℚ) ≤ 1 + (n : ℚ) * (1/10) := by positivity
    exact mul_nonneg (mul_nonneg hb hd) hm
  · simp only [calcCollisionProbability]
    exact min_le_right _ _
  · intro x hx
    subst hx
    simp [calcCollisionProbability, distLe]
  · intro hx
    subst hx
    simp [calcCollisionProbability, distLe]

/-- Claim C6 witness: the amended statement instantiated at distance 3 km,
no nearby objects, payload type. -/
theorem c6_probability_witness :
    calcCollisionProbability (some 3) 0 "PAYLOAD" =
      min ((if (3:ℚ) ≤ 5 then (25 : ℚ) else if (3:ℚ) ≤ 25 then 10
            else if (3:ℚ) ≤ 100 then 2 else if (3:ℚ) ≤ 500 then 1/10 else 1/100) *
           (1 + ((0:ℕ) : ℚ) * (1/10)) *
           (if "PAYLOAD" = "DEBRIS" then (3/2:ℚ)
            else if "PAYLOAD" = "ROCKET_BODY" then 6/5 else 1))
        100 :=
  (c6_probability (some 3) 0 "PAYLOAD").2.1 3 rfl

/-! ### C7 — conjunction scan -/

/-- Claim C7, counterexample: The claim says an event is emitted at *every*
sampled time with distance ≤ 100 km; but when the computed distance is
exactly 0 the guard `if distance and distance <= 100` is falsy (Python
treats `0.0` as false) and no event is emitted. -/
theorem c7_counterexample :
    predictConjunctionEvents (fun _ => some 0) 1 = [] ∧ ((0:ℚ) ≤ 100) := by
  constructor
  · decide
  · norm_num

/-- Claim C7, amended: The scan samples the distance at whole-hour offsets
`0, 1, ..., H − 1`; an event `(h, d, risk level of d)` is emitted exactly
for the sampled hours whose distance computed (`some d`), is *nonzero*
(Python falsiness of `0.0`), and is at most the 100 km MEDIUM threshold;
failed samples are skipped and no other times occur. -/
theorem c7_conjunction_events (dist : ℕ → Option ℚ) (H : ℤ)
    (h : ℕ) (d : ℚ) (lvl : String) :
    (h, d, lvl) ∈ predictConjunctionEvents dist H ↔
      (h < H.toNat ∧ dist h = some d ∧ d ≠ 0 ∧ d ≤ 100 ∧
        lvl = calcRiskLevel (some d)) := by
  unfold predictConjunctionEvents
  simp only [List.mem_filterMap, List.mem_range]
  constructor
  · rintro ⟨a, ha, heq⟩
    cases hda : dist a with
    | none => rw [hda] at heq; cases heq
    | some x =>
        rw [hda] at heq
        dsimp only at heq
        by_cases hx : x ≠ 0 ∧ x ≤ 100
        · rw [if_pos hx] at heq
          simp only [Option.some.injEq, Prod.mk.injEq] at heq
          obtain ⟨rfl, rfl, rfl⟩ := heq
          exact ⟨ha, hda, hx.1, hx.2, rfl⟩
        · rw [if_neg hx] at heq; cases heq
  · rintro ⟨hh, hd, h0, h100, hl⟩
    refine ⟨h, hh, ?_⟩
    rw [hd]
    dsimp only
    rw [if_pos ⟨h0, h100⟩, hl]

/-- Claim C7 witness: at a constant computed distance of 50 km over a 2-hour
horizon, hour 1 carries a MEDIUM event, per the amended characterization. -/
theorem c7_conjunction_events_witness :
    (1, (50:ℚ), "MEDIUM") ∈ predictConjunctionEvents (fun _ => some 50) 2 :=
  (c7_conjunction_events (fun _ => some 50) 2 1 50 "MEDIUM").mpr
    ⟨by decide, rfl, by norm_num, by norm_num, by norm_num [calcRiskLevel, distLe]⟩

/-! ### C8 — cache TTL idempotence -/

/-- Claim C8: With an entry `e` stored for `key`, any two `get` calls whose
times lie strictly within the TTL window (`now − fetched_at < TTL`) return
exactly the stored record sequence (and hence equal sequences); a `get`
whose time is at or past the window's end misses (`none`) instead of
returning stale records; and the TTL constant is 7200 s (2 hours). -/
theorem c8_cache_ttl (cache : List (String × CacheEntry)) (key : String)
    (e : CacheEntry) (t1 t2 : ℚ)
    (he : lookupCache cache key = some e)
    (h1 : t1 - e.timestamp < cacheDuration)
    (h2 : t2 - e.timestamp < cacheDuration) :
    getCachedData cache key t1 = some e.data ∧
    getCachedData cache key t2 = some e.data ∧
    getCachedData cache key t1 = getCachedData cache key t2 ∧
    (∀ t3, cacheDuration ≤ t3 - e.timestamp → getCachedData cache key t3 = none) ∧
    cacheDuration = 7200 := by
  have hv : ∀ t : ℚ, t - e.timestamp < cacheDuration →
      getCachedData cache key t = some e.data := by
    intro t ht
    unfold getCachedData isCacheValid
    rw [he]
    simp [ht]
  refine ⟨hv t1 h1, hv t2 h2, (hv t1 h1).trans (hv t2 h2).symm, ?_, rfl⟩
  intro t3 ht3
  unfold getCachedData isCacheValid
  rw [he]
  simp [not_lt.mpr ht3]

/-- Claim C8 witness: a single-entry cache stored at time 0; gets at 0 s and
3600 s agree, a get at 9000 s (past the 7200 s TTL) misses. -/
theorem c8_cache_ttl_witness :
    getCachedData [("tle_active_100", ⟨[], 0⟩)] "tle_active_100" 0 = some [] ∧
    getCachedData [("tle_active_100", ⟨[], 0⟩)] "tle_active_100" 3600 = some [] ∧
    getCachedData [("tle_active_100", ⟨[], 0⟩)] "tle_active_100" 9000 = none := by
  have h := c8_cache_ttl [("tle_active_100", ⟨[], 0⟩)] "tle_active_100" ⟨[], 0⟩ 0 3600
    (by decide) (by norm_num [cacheDuration]) (by norm_num [cacheDuration])
  exact ⟨h.1, h.2.1, h.2.2.2.1 9000 (by norm_num [cacheDuration])⟩

/-! ### C5 — unavailability is `None`, never an empty success -/

/-- Claim C5: A gateway/auth/quota failure surfaces as `queryResult = none`
and fetches nothing; with no valid cache and nothing fetched, no satellite
data is obtained; and `get_active_satellites` answers `None` exactly when
no satellite data was obtained — in particular it never answers a success
object with an empty satellite list in that situation, so an absent result
means "source unavailable" and never "zero satellites exist". -/
theorem c5_unavailability (cache : List (String × CacheEntry)) (now : ℚ)
    (queryResult : Option String) (limit : ℤ)
    (enhance : TleRecord → Option SatelliteData)
    (dist : SatelliteData → SatelliteData → Option ℚ) (includeRisk : Bool) :
    (queryResult = none → fetchTleData now queryResult limit = []) ∧
    (getCachedData cache (tleCacheKey limit) now = none →
      fetchTleData now queryResult limit = [] →
      satellitesObtained cache now queryResult limit = []) ∧
    ((getActiveSatellites cache now queryResult limit enhance dist includeRisk).1
        = none ↔
      satellitesObtained cache now queryResult limit = []) := by
  refine ⟨?_, ?_, ?_⟩
  · rintro rfl; rfl
  · intro hc hf
    unfold satellitesObtained
    rw [hc]
    exact hf
  · unfold getActiveSatellites satellitesObtained
    cases hc : getCachedData cache (tleCacheKey limit) now with
    | none =>
        simp only [hc]
        by_cases hf : fetchTleData now queryResult limit = [] <;> simp [hf]
    | some l =>
        simp only [hc]
        by_cases hl : l = []
        · subst hl
          by_cases hf : fetchTleData now queryResult limit = [] <;> simp [hf]
        · by_cases hp : pyListTake l limit = [] <;> simp [hl, hp]

/-- Claim C5 witness: empty cache and a failed gateway query yield `None`. -/
theorem c5_unavailability_witness :
    (getActiveSatellites [] 0 none 1 (fun _ => none) (fun _ _ => none) false).1
      = none := by
  refine (c5_unavailability [] 0 none 1 (fun _ => none) (fun _ _ => none)
    false).2.2.mpr ?_
  simp [satellitesObtained, getCachedData, isCacheValid, lookupCache, fetchTleData]

/-! ### C4 and C9 — parser acceptance and shape -/

/-- Once the accepted count has reached the limit, the pair loop yields
nothing more (the `len(satellites) >= limit` break). -/
theorem parseTlePairs_limit_le (now : ℚ) (limit : ℤ) (lines : List String)
    (count : ℕ) (h : (count : ℤ) ≥ limit) :
    parseTlePairs now limit lines count = [] := by
  match lines with
  | [] => rfl
  | [_] => rfl
  | _ :: _ :: _ => simp [parseTlePairs, h]

/-- The pair loop, in closed form: two lines at a time over *all* lines,
accepted pairs kept in order, truncated at the remaining budget. -/
theorem parseTlePairs_take (now : ℚ) (limit : ℤ) (lines : List String) :
    ∀ count : ℕ, parseTlePairs now limit lines count =
      ((chunk2 lines).filterMap fun p => acceptPair now p.1 p.2).take
        (limit - count).toNat := by
  induction lines using chunk2.induct with
  | case1 => intro count; simp [parseTlePairs, chunk2]
  | case2 a => intro count; simp [parseTlePairs, chunk2]
  | case3 a b rest ih =>
      intro count
      by_cases hlim : (count : ℤ) ≥ limit
      · have h0 : (limit - count).toNat = 0 := by omega
        simp [parseTlePairs, hlim, h0]
      · cases hacc : acceptPair now a b with
        | some r =>
            have h1 : (limit - (count : ℤ)).toNat =
                (limit - ((count + 1 : ℕ) : ℤ)).toNat + 1 := by push_cast; omega
            simp [parseTlePairs, hlim, chunk2, hacc, ih, h1]
        | none =>
            simp [parseTlePairs, hlim, chunk2, hacc, ih]

/-- Claim C4, counterexample: A pair whose lines carry the `"1 "` and `"2 "`
prefixes but whose NORAD field is not an integer is *not* accepted — the
claimed "if and only if the prefixes match" fails in the "if" direction
(the pair is still skipped without aborting the batch). -/
theorem c4_counterexample :
    pyStartsWith "1 XXXXXU" "1 " = true ∧
    pyStartsWith "2 XXXXX" "2 " = true ∧
    acceptPair 0 "1 XXXXXU" "2 XXXXX" = none ∧
    parseTleData 0 "1 XXXXXU\n2 XXXXX" 10 = [] := by decide

/-- Claim C4, amended: A pair is accepted iff line1 (stripped) starts with
`"1 "`, line2 (stripped) starts with `"2 "`, *and* the NORAD field
`line1[2:7]` parses as an integer; and a rejected pair is simply skipped —
the loop continues on the remaining lines exactly as if the pair were
absent, never aborting the batch. -/
theorem c4_acceptance :
    (∀ (now : ℚ) (l1 l2 : String), (acceptPair now l1 l2).isSome = true ↔
        (pyStartsWith (pyStrip l1) "1 " = true ∧
         pyStartsWith (pyStrip l2) "2 " = true ∧
         (pyInt? (pyStrip (pySlice (pyStrip l1) 2 7))).isSome = true)) ∧
    (∀ (now : ℚ) (limit : ℤ) (rest : List String) (count : ℕ) (l1 l2 : String),
        acceptPair now l1 l2 = none →
        parseTlePairs now limit (l1 :: l2 :: rest) count =
          parseTlePairs now limit rest count) := by
  constructor
  · intro now l1 l2
    unfold acceptPair
    cases hA : pyStartsWith (pyStrip l1) "1 " <;>
      cases hB : pyStartsWith (pyStrip l2) "2 " <;>
        simp [hA, hB]
    cases hI : pyInt? (pyStrip (pySlice (pyStrip l1) 2 7)) <;> simp [hI]
  · intro now limit rest count l1 l2 hacc
    by_cases hlim : (count : ℤ) ≥ limit
    · have h2 := parseTlePairs_limit_le now limit rest count hlim
      simp [parseTlePairs, hlim, h2]
    · simp [parseTlePairs, hlim, hacc]

/-- Claim C4 witness: a well-formed pair (NORAD 5) is accepted; a prefix-valid
pair with a bad NORAD field is skipped and the loop continues as if it were
absent. -/
theorem c4_acceptance_witness :
    (acceptPair 0 "1 00005U" "2 00005").isSome = true ∧
    parseTlePairs 0 10 ["1 XXXXXU", "2 XXXXX"] 0 = parseTlePairs 0 10 [] 0 :=
  ⟨(c4_acceptance.1 0 "1 00005U" "2 00005").mpr ⟨by decide, by decide, by decide⟩,
   c4_acceptance.2 0 10 [] 0 "1 XXXXXU" "2 XXXXX" (by decide)⟩

/-- Claim C9, counterexample: `split('\n')` keeps interior empty lines, so
pairing is over *all* lines, not the non-empty ones: with a blank line
between line1 and line2, the code pairs line1 with the blank and rejects,
yielding nothing, while the claimed "non-empty lines two at a time" reading
yields one record. -/
theorem c9_counterexample :
    parseTleData 0 "1 00005U\n\n2 00005" 10 = [] ∧
    (parseTleDataSpecReading 0 "1 00005U\n\n2 00005" 10).length = 1 := by decide

/-- Claim C9, amended: The parser's output equals taking *all* lines of the
stripped input (interior empty lines included, a trailing odd line
dropped) two at a time in source order, keeping the accepted pairs in that
order and truncating at `limit`; the function is total (never raises) and
its output never exceeds `limit` records. -/
theorem c9_parser_shape (now : ℚ) (text : String) (limit : ℤ) :
    parseTleData now text limit =
      ((chunk2 (pySplitNl (pyStrip text))).filterMap
        fun p => acceptPair now p.1 p.2).take limit.toNat ∧
    (parseTleData now text limit).length ≤ limit.toNat := by
  have h := parseTlePairs_take now limit (pySplitNl (pyStrip text)) 0
  have h0 : ((limit - ((0 : ℕ) : ℤ)).toNat) = limit.toNat := by push_cast; omega
  rw [h0] at h
  refine ⟨h, ?_⟩
  rw [parseTleData, h]
  exact List.length_take_le _ _

/-! ### C3 — TLE epoch parsing -/

/-- Claim C3: (1) Whenever the first two columns parse as `yy` and the rest
as the fractional day-of-year `d`, and the result lies in `datetime`'s
range, the epoch is `Jan 1 of year + (d − 1) days` with `year = 2000+yy`
for `yy < 57` and `1900+yy` otherwise.  (2) The encoding year 24,
day-of-year 179.5 decodes to 2024-06-27T12:00:00Z.  (3) On an epoch-field
parse failure the record is still accepted, with the current time
substituted as its epoch. -/
theorem c3_epoch_parsing :
    (∀ (s : String) (yy : ℤ) (d : ℚ),
        pyInt? (pySlice s 0 2) = some yy →
        pyFloat? (pySliceFrom s 2) = some d →
        ∀ year : ℤ, year = (if yy < 57 then 2000 + yy else 1900 + yy) →
        datetimeMinSec ≤ tleEpochSeconds year d →
        tleEpochSeconds year d < datetimeMaxSec →
        parseTleEpoch s = some (civilSec year 1 1 + (d - 1) * 86400)) ∧
    parseTleEpoch "24179.50000000" =
      some (civilSec 2024 6 27 + (12 * 3600 : ℚ)) ∧
    (∀ (now : ℚ) (l1 l2 : String) (n : ℤ),
        pyInt? (pyStrip (pySlice (pyStrip l1) 2 7)) = some n →
        pyStartsWith (pyStrip l1) "1 " = true →
        pyStartsWith (pyStrip l2) "2 " = true →
        parseTleEpoch (pyStrip (pySlice (pyStrip l1) 18 32)) = none →
        ∃ r, acceptPair now l1 l2 = some r ∧ r.epoch = now) := by
  refine ⟨?_, ?_, ?_⟩
  · intro s yy d hyy hd year hyear hmin hmax
    unfold parseTleEpoch
    rw [hyy, hd]
    dsimp only
    rw [← hyear, if_pos ⟨hmin, hmax⟩, tleEpochSeconds_def]
  · have h1 : parseTleEpoch "24179.50000000" = some (mkRat 1719489600 1) := by
      decide
    rw [h1]
    congr 1
    have h2 : daysFromCivil 2024 6 27 = 19901 := by decide
    rw [civilSec_def, h2, Rat.mkRat_eq_div]
    norm_num
  · intro now l1 l2 n hn h1 h2 hepoch
    refine ⟨⟨getSatelliteName n (pyStrip l1) (pyStrip l2), n, pyStrip l1,
      pyStrip l2, now⟩, ?_, rfl⟩
    simp [acceptPair, h1, h2, hn, hepoch]

/-- Claim C3 witness: `"70001.0"` decodes to 1970-01-01T00:00:00Z through the
general mapping, and a record whose epoch field is empty (line1 too short)
is accepted with the supplied current time (7) as its epoch. -/
theorem c3_epoch_parsing_witness :
    parseTleEpoch "70001.0" = some (civilSec 1970 1 1 + ((1 : ℚ) - 1) * 86400) ∧
    (∃ r, acceptPair 7 "1 00005U" "2 00005" = some r ∧ r.epoch = 7) :=
  ⟨c3_epoch_parsing.1 "70001.0" 70 1 (by decide) (by decide) 1970 (by decide)
      (by decide) (by decide),
   c3_epoch_parsing.2.2 7 "1 00005U" "2 00005" 5 (by decide) (by decide)
      (by decide) (by decide)⟩

/-! ### C1 — risk level from closest approach -/

/-- The collision scan, split into its two accumulations: the final
`closest_distance` is the `updMin`-fold of the computed distances, and the
`nearby_objects` count is the number of computed distances ≤ 500 km. -/
theorem assess_scan (dist : SatelliteData → SatelliteData → Option ℚ)
    (sat : SatelliteData) :
    ∀ (all : List SatelliteData) (acc : Option ℚ × List NearbyObject),
      (all.foldl (assessStep dist sat) acc).1 =
        (relevantDistances dist sat all).foldl updMin acc.1 ∧
      (all.foldl (assessStep dist sat) acc).2.length =
        acc.2.length + (relevantDistances dist sat all).countP
          (fun d => distLe (some d) 500) := by
  intro all
  induction all with
  | nil => intro acc; simp [relevantDistances]
  | cons o rest ih =>
      intro acc
      by_cases h1 : o.norad_id = sat.norad_id
      · have hr : relevantDistances dist sat (o :: rest) =
            relevantDistances dist sat rest := by
          simp [relevantDistances, h1]
        have hstep : assessStep dist sat acc o = acc := by simp [assessStep, h1]
        rw [List.foldl_cons, hr, hstep]
        exact ih acc
      · by_cases h2 : o.line1 = "" ∨ o.line2 = ""
        · have hr : relevantDistances dist sat (o :: rest) =
              relevantDistances dist sat rest := by
            simp only [relevantDistances, List.filterMap_cons]
            rw [if_neg h1, if_pos h2]
          have hstep : assessStep dist sat acc o = acc := by
            simp only [assessStep]
            rw [if_neg h1, if_pos h2]
          rw [List.foldl_cons, hr, hstep]
          exact ih acc
        · cases hd : dist sat o with
          | none =>
              have hr : relevantDistances dist sat (o :: rest) =
                  relevantDistances dist sat rest := by
                simp only [relevantDistances, List.filterMap_cons]
                rw [if_neg h1, if_neg h2, hd]
              have hstep : assessStep dist sat acc o = acc := by
                simp only [assessStep]
                rw [if_neg h1, if_neg h2, hd]
              rw [List.foldl_cons, hr, hstep]
              exact ih acc
          | some dv =>
              have hr : relevantDistances dist sat (o :: rest) =
                  dv :: relevantDistances dist sat rest := by
                simp only [relevantDistances, List.filterMap_cons]
                rw [if_neg h1, if_neg h2, hd]
              have hstep : assessStep dist sat acc o =
                  (updMin acc.1 dv,
                   if distLe (some dv) 500 then
                     acc.2 ++ [⟨o.norad_id, o.name, dv, o.object_type⟩]
                   else acc.2) := by
                simp only [assessStep]
                rw [if_neg h1, if_neg h2, hd]
              rw [List.foldl_cons, hr, hstep]
              obtain ⟨ihA, ihB⟩ := ih (updMin acc.1 dv,
                if distLe (some dv) 500 then
                  acc.2 ++ [⟨o.norad_id, o.name, dv, o.object_type⟩]
                else acc.2)
              refine ⟨by simpa using ihA, ?_⟩
              rw [ihB, List.countP_cons]
              by_cases h500 : distLe (some dv) 500 <;>
                simp [h500, List.length_append] <;> omega

/-- The `updMin` fold from a finite start yields the minimum of the start
and the traversed elements. -/
theorem foldl_updMin_some (xs : List ℚ) :
    ∀ c : ℚ, ∃ m, xs.foldl updMin (some c) = some m ∧ m ≤ c ∧
      (m = c ∨ m ∈ xs) ∧ (∀ y ∈ xs, m ≤ y) := by
  induction xs with
  | nil => intro c; exact ⟨c, rfl, le_refl c, Or.inl rfl, by simp⟩
  | cons x rest ih =>
      intro c
      rw [List.foldl_cons]
      by_cases hxc : x < c
      · have hupd : updMin (some c) x = some x := by simp [updMin, hxc]
        rw [hupd]
        obtain ⟨m, hm, hmc, hmem, hall⟩ := ih x
        refine ⟨m, hm, le_trans hmc (le_of_lt hxc), ?_, ?_⟩
        · rcases hmem with h | h
          · exact Or.inr (by simp [h])
          · exact Or.inr (by simp [h])
        · intro y hy
          rcases List.mem_cons.mp hy with h | h
          · exact h ▸ hmc
          · exact hall y h
      · have hupd : updMin (some c) x = some c := by simp [updMin, hxc]
        rw [hupd]
        obtain ⟨m, hm, hmc, hmem, hall⟩ := ih c
        refine ⟨m, hm, hmc, ?_, ?_⟩
        · rcases hmem with h | h
          · exact Or.inl h
          · exact Or.inr (by simp [h])
        · intro y hy
          rcases List.mem_cons.mp hy with h | h
          · exact h ▸ le_trans hmc (not_lt.mp hxc)
          · exact hall y h

/-- Transcribes `closest_distance` stays `inf` exactly when no distance was computed,
and otherwise is the minimum of the computed distances. -/
theorem closestOf_spec (dist : SatelliteData → SatelliteData → Option ℚ)
    (sat : SatelliteData) (all : List SatelliteData) :
    (closestOf dist sat all = none ↔ relevantDistances dist sat all = []) ∧
    (∀ x, closestOf dist sat all = some x →
      x ∈ relevantDistances dist sat all ∧
        ∀ y ∈ relevantDistances dist sat all, x ≤ y) := by
  unfold closestOf
  cases hl : relevantDistances dist sat all with
  | nil => simp
  | cons a as =>
      rw [List.foldl_cons]
      have hupd : updMin none a = some a := rfl
      rw [hupd]
      obtain ⟨m, hm, hmc, hmem, hall⟩ := foldl_updMin_some as a
      rw [hm]
      refine ⟨by simp, ?_⟩
      rintro x hx
      obtain rfl : m = x := by injection hx
      refine ⟨?_, ?_⟩
      · rcases hmem with h | h
        · exact h ▸ List.mem_cons_self a as
        · exact List.mem_cons_of_mem a h
      · intro y hy
        rcases List.mem_cons.mp hy with h | h
        · exact h ▸ hmc
        · exact hall y h

/-- Claim C1, counterexample: With a single other object at 600 km, the
claim says the satellite gets *no rating* and `closest_km` stays absent;
the code instead rates it LOW, reports `closest_approach_km = 600`, and
(correctly) counts no nearby objects. -/
theorem c1_counterexample :
    ((assessCollisionRisk (fun _ _ => some 600)
        ⟨"A", 1, "1 A", "2 A", "PAYLOAD", none, none⟩
        [⟨"B", 2, "1 B", "2 B", "PAYLOAD", none, none⟩]).map
      (·.collision_risk_level)) = some "LOW" ∧
    ((assessCollisionRisk (fun _ _ => some 600)
        ⟨"A", 1, "1 A", "2 A", "PAYLOAD", none, none⟩
        [⟨"B", 2, "1 B", "2 B", "PAYLOAD", none, none⟩]).map
      (·.closest_approach_km)) = some (some 600) ∧
    ((assessCollisionRisk (fun _ _ => some 600)
        ⟨"A", 1, "1 A", "2 A", "PAYLOAD", none, none⟩
        [⟨"B", 2, "1 B", "2 B", "PAYLOAD", none, none⟩]).map
      (·.nearby_objects_count)) = some 0 := by
  decide

/-- Claim C1, amended: For a satellite with both TLE lines, the assessment
always returns a rating determined solely by the closest computed distance:
d ≤ 5 → CRITICAL, 5 < d ≤ 25 → HIGH, 25 < d ≤ 100 → MEDIUM, and *every*
d > 100 → LOW (including d > 500 and the case of no computed distance at
all — there is no "no rating"); `closest_approach_km` is absent exactly
when no distance was computed; objects farther than 500 km are never
counted in `nearby_objects_count`; and the boundary values behave as
claimed (5 → CRITICAL, 5.0001 → HIGH, 25 → HIGH, 25.0001 → MEDIUM). -/
theorem c1_risk_levels (dist : SatelliteData → SatelliteData → Option ℚ)
    (sat : SatelliteData) (all : List SatelliteData)
    (h1 : sat.line1 ≠ "") (h2 : sat.line2 ≠ "") :
    ∃ ra, assessCollisionRisk dist sat all = some ra ∧
      ra.closest_approach_km = closestOf dist sat all ∧
      ra.nearby_objects_count =
        (relevantDistances dist sat all).countP (fun d => distLe (some d) 500) ∧
      ra.collision_risk_level = calcRiskLevel (closestOf dist sat all) ∧
      (∀ x, closestOf dist sat all = some x →
          x ∈ relevantDistances dist sat all ∧
          (∀ y ∈ relevantDistances dist sat all, x ≤ y) ∧
          (x ≤ 5 → ra.collision_risk_level = "CRITICAL") ∧
          (5 < x → x ≤ 25 → ra.collision_risk_level = "HIGH") ∧
          (25 < x → x ≤ 100 → ra.collision_risk_level = "MEDIUM") ∧
          (100 < x → ra.collision_risk_level = "LOW")) ∧
      (closestOf dist sat all = none →
          ra.collision_risk_level = "LOW" ∧ ra.closest_approach_km = none) ∧
      calcRiskLevel (some 5) = "CRITICAL" ∧
      calcRiskLevel (some (5 + 1/10000)) = "HIGH" ∧
      calcRiskLevel (some 25) = "HIGH" ∧
      calcRiskLevel (some (25 + 1/10000)) = "MEDIUM" := by
  have hcond : ¬(sat.line1 = "" ∨ sat.line2 = "") := by tauto
  obtain ⟨hfst, hsnd⟩ := assess_scan dist sat all (none, [])
  have hclosest : (all.foldl (assessStep dist sat) (none, [])).1 =
      closestOf dist sat all := hfst
  unfold assessCollisionRisk
  rw [if_neg hcond]
  refine ⟨_, rfl, ?_, ?_, ?_, ?_, ?_, ?_, ?_, ?_, ?_⟩
  · exact hclosest
  · simpa using hsnd
  · rw [hclosest]
  · intro x hx
    obtain ⟨hmem, hmin⟩ := (closestOf_spec dist sat all).2 x hx
    refine ⟨hmem, hmin, ?_, ?_, ?_, ?_⟩
    · intro h5
      simp [hclosest, hx, calcRiskLevel, distLe, h5]
    · intro h5 h25
      have hn5 : ¬(x ≤ 5) := by linarith
      simp [hclosest, hx, calcRiskLevel, distLe, hn5, h25]
    · intro h25 h100
      have hn5 : ¬(x ≤ 5) := by linarith
      have hn25 : ¬(x ≤ 25) := by linarith
      simp [hclosest, hx, calcRiskLevel, distLe, hn5, hn25, h100]
    · intro h100
      have hn5 : ¬(x ≤ 5) := by linarith
      have hn25 : ¬(x ≤ 25) := by linarith
      have hn100 : ¬(x ≤ 100) := by linarith
      simp [hclosest, hx, calcRiskLevel, distLe, hn5, hn25, hn100]
  · intro hx
    constructor
    · simp [hclosest, hx, calcRiskLevel, distLe]
    · rw [hclosest]; exact hx
  · norm_num [calcRiskLevel, distLe]
  · norm_num [calcRiskLevel, distLe]
  · norm_num [calcRiskLevel, distLe]
  · norm_num [calcRiskLevel, distLe]

/-- Claim C1 witness: a target with TLE lines and one other object at 50 km;
the assessment exists and its rating/closest fields are as characterized
(in particular MEDIUM at 50 km). -/
theorem c1_risk_levels_witness :
    ∃ ra, assessCollisionRisk (fun _ _ => some 50)
        ⟨"A", 1, "1 A", "2 A", "PAYLOAD", none, none⟩
        [⟨"B", 2, "1 B", "2 B", "PAYLOAD", none, none⟩] = some ra ∧
      ra.closest_approach_km = closestOf (fun _ _ => some 50)
        ⟨"A", 1, "1 A", "2 A", "PAYLOAD", none, none⟩
        [⟨"B", 2, "1 B", "2 B", "PAYLOAD", none, none⟩] ∧
      ra.collision_risk_level = calcRiskLevel (closestOf (fun _ _ => some 50)
        ⟨"A", 1, "1 A", "2 A", "PAYLOAD", none, none⟩
        [⟨"B", 2, "1 B", "2 B", "PAYLOAD", none, none⟩]) := by
  obtain ⟨ra, ha, hb, _, hc, _⟩ := c1_risk_levels (fun _ _ => some 50)
    ⟨"A", 1, "1 A", "2 A", "PAYLOAD", none, none⟩
    [⟨"B", 2, "1 B", "2 B", "PAYLOAD", none, none⟩] (by decide) (by decide)
  exact ⟨ra, ha, hb, hc⟩

/-! ### C2 — quota check and counters -/

/-- Claim C2, counterexample: Thirty successive quota checks from a fresh
state all pass, yet the per-minute counter is still 0 and the 31st check
*also* passes: the check itself never increments the counters (the
increment lives in `query_tle_data`), so "after 30 successful checks the
next check fails" is false. -/
theorem c2_counterexample :
    (iterChecks defaultConfig 0 30 initialAuthState).1 = true ∧
    (iterChecks defaultConfig 0 30 initialAuthState).2.request_count_minute = 0 ∧
    (checkRateLimits defaultConfig 0
        (iterChecks defaultConfig 0 30 initialAuthState).2).1 = true := by
  decide

/-- Login never touches the rate-limit counters. -/
theorem login_counters (cfg : SpaceTrackConfig) (now : ℤ) (s : AuthState)
    (o : Bool) :
    (login cfg now s o).2.request_count_hour = s.request_count_hour ∧
    (login cfg now s o).2.request_count_minute = s.request_count_minute := by
  unfold login
  split_ifs <;> exact ⟨rfl, rfl⟩

set_option maxRecDepth 4000 in
/-- Claim C2, amended: The quota check does not itself increment the
counters: within both windows it leaves them unchanged and fails exactly
when a counter is at its configured ceiling; once a window's reset time has
passed, the next check resets that counter to zero and schedules the next
window (lazy roll-forward, no background timer).  The increment happens in
`query_tle_data` when an HTTP response arrives — each such call adds
exactly one to both counters — so after `rate_limit_per_minute` (default
30) queries that received responses within one minute window, the next
check fails. -/
theorem c2_quota_behavior (cfg : SpaceTrackConfig) (now : ℤ) (s : AuthState) :
    (∀ th tm, s.rate_limit_reset_hour = some th → now < th →
        s.rate_limit_reset_minute = some tm → now < tm →
        (checkRateLimits cfg now s).2.request_count_hour = s.request_count_hour ∧
        (checkRateLimits cfg now s).2.request_count_minute =
          s.request_count_minute ∧
        ((checkRateLimits cfg now s).1 = false ↔
          (cfg.rate_limit_per_hour ≤ s.request_count_hour ∨
           cfg.rate_limit_per_minute ≤ s.request_count_minute))) ∧
    (∀ tm, s.rate_limit_reset_minute = some tm → tm ≤ now →
        (checkRateLimits cfg now s).2.request_count_minute = 0 ∧
        (checkRateLimits cfg now s).2.rate_limit_reset_minute =
          some (now + 60)) ∧
    (∀ (o : Bool) (r : HttpResponse),
        (checkRateLimits cfg now s).1 = true →
        (isSessionValid now (checkRateLimits cfg now s).2 = true ∨
          (login cfg now (checkRateLimits cfg now s).2 o).1 = true) →
        (queryTleData cfg now s o (some r)).2.request_count_hour =
          (checkRateLimits cfg now s).2.request_count_hour + 1 ∧
        (queryTleData cfg now s o (some r)).2.request_count_minute =
          (checkRateLimits cfg now s).2.request_count_minute + 1) ∧
    ((iterQueries ⟨"u", "p", 300, 30, 30⟩ 0 ⟨200, ""⟩ 30
        initialAuthState).request_count_minute = 30 ∧
     (checkRateLimits ⟨"u", "p", 300, 30, 30⟩ 0
        (iterQueries ⟨"u", "p", 300, 30, 30⟩ 0 ⟨200, ""⟩ 30
          initialAuthState)).1 = false) := by
  refine ⟨?_, ?_, ?_, by decide⟩
  · intro th tm hh hlth hm hltm
    have hh' : ¬(now ≥ th) := not_le.mpr hlth
    have hm' : ¬(now ≥ tm) := not_le.mpr hltm
    unfold checkRateLimits
    simp only [hh, hm, if_neg hh', if_neg hm']
    by_cases hA : cfg.rate_limit_per_hour ≤ s.request_count_hour <;>
      by_cases hB : cfg.rate_limit_per_minute ≤ s.request_count_minute <;>
        simp [ge_iff_le, hA, hB]
  · intro tm hm hge
    unfold checkRateLimits
    cases hh : s.rate_limit_reset_hour with
    | none =>
        simp only [hh, hm]
        rw [if_pos (show now ≥ tm by omega)]
        split_ifs <;> exact ⟨rfl, rfl⟩
    | some th =>
        by_cases hth : now ≥ th
        · simp only [hh, if_pos hth, hm]
          rw [if_pos (show now ≥ tm by omega)]
          split_ifs <;> exact ⟨rfl, rfl⟩
        · simp only [hh, if_neg hth, hm]
          rw [if_pos (show now ≥ tm by omega)]
          split_ifs <;> exact ⟨rfl, rfl⟩
  · intro o r hcheck hsess
    unfold queryTleData
    simp only [hcheck, Bool.not_true, Bool.false_eq_true, if_false]
    set s1 := (checkRateLimits cfg now s).2 with hs1
    have hlr : (if isSessionValid now s1 then (true, s1)
        else login cfg now s1 o).1 = true := by
      by_cases hsv : isSessionValid now s1 = true
      · simp [hsv]
      · rcases hsess with h | h
        · exact absurd h hsv
        · simp [Bool.not_eq_true] at hsv
          simp [hsv, h]
    set lr := (if isSessionValid now s1 then (true, s1)
        else login cfg now s1 o) with hlrdef
    have hcount : lr.2.request_count_hour = s1.request_count_hour ∧
        lr.2.request_count_minute = s1.request_count_minute := by
      rw [hlrdef]
      by_cases hsv : isSessionValid now s1 = true
      · simp [hsv]
      · simp [Bool.not_eq_true] at hsv
        simp only [hsv, Bool.false_eq_true, if_false]
        exact login_counters cfg now s1 o
    simp only [hlr, Bool.not_true, Bool.false_eq_true, if_false]
    split_ifs <;> simp [hcount.1, hcount.2]

/-- Claim C2 witness: from a fresh state, one quota check at time 0 passes
with counters untouched, and one response-carrying query increments both
counters to 1; with the minute window [0, 60) still open and the counter
at the 30-call default ceiling, the check fails. -/
theorem c2_quota_behavior_witness :
    ((checkRateLimits defaultConfig 5
        ⟨false, none, none, 3, 4, some 100, some 50⟩).2.request_count_minute = 4 ∧
      (checkRateLimits defaultConfig 5
        ⟨false, none, none, 3, 4, some 100, some 50⟩).1 ≠ false) ∧
    (checkRateLimits defaultConfig 70
        ⟨false, none, none, 3, 4, some 100, some 50⟩).2.request_count_minute = 0 ∧
    (queryTleData ⟨"u", "p", 300, 30, 30⟩ 0 initialAuthState true
        (some ⟨404, ""⟩)).2.request_count_minute =
      (checkRateLimits ⟨"u", "p", 300, 30, 30⟩ 0
        initialAuthState).2.request_count_minute + 1 := by
  have h1 := (c2_quota_behavior defaultConfig 5
    ⟨false, none, none, 3, 4, some 100, some 50⟩).1 100 50 rfl (by decide) rfl
    (by decide)
  have h2 := (c2_quota_behavior defaultConfig 70
    ⟨false, none, none, 3, 4, some 100, some 50⟩).2.1 50 rfl (by decide)
  have h3 := (c2_quota_behavior ⟨"u", "p", 300, 30, 30⟩ 0 initialAuthState).2.2.1
    true ⟨404, ""⟩ (by decide) (Or.inr (by decide))
  refine ⟨⟨h1.2.1, ?_⟩, h2.1, h3.2⟩
  intro hfalse
  have := h1.2.2.mp hfalse
  revert this
  decide

/-! ### C10 — which calls consume quota -/

/-- Claim C10, counterexample: A call rejected by the rate-limit pre-check
does *not* leave both counters unchanged: here the hourly window had
expired, so the pre-check's lazy roll-forward resets the hour counter from
250 to 0 even though the call is then rejected on the minute ceiling. -/
theorem c10_counterexample :
    (checkRateLimits defaultConfig 50
        ⟨false, none, none, 250, 30, some 10, some 100⟩).1 = false ∧
    (queryTleData defaultConfig 50
        ⟨false, none, none, 250, 30, some 10, some 100⟩ false none).1 = none ∧
    (queryTleData defaultConfig 50
        ⟨false, none, none, 250, 30, some 10, some 100⟩ false
        none).2.request_count_hour = 0 ∧
    (0 : ℕ) ≠ 250 := by
  decide

/-- Claim C10, amended: Relative to the state left by the pre-check's lazy
roll-forward: a call rejected by the pre-check returns `None` with exactly
that state (un-incremented, though the roll-forward itself may already have
reset a counter); a call that passes the pre-check and obtains a session
but raises before any response leaves both counters at their
post-roll-forward values; every call that receives an HTTP response —
whatever its status or body — increments both counters by exactly one; and
a call that passes the pre-check but cannot obtain a session returns
`None` with both counters un-incremented. -/
theorem c10_counter_increments (cfg : SpaceTrackConfig) (now : ℤ)
    (s : AuthState) (o : Bool) :
    (∀ httpResult, (checkRateLimits cfg now s).1 = false →
        queryTleData cfg now s o httpResult =
          (none, (checkRateLimits cfg now s).2)) ∧
    ((checkRateLimits cfg now s).1 = true →
        (isSessionValid now (checkRateLimits cfg now s).2 = true ∨
          (login cfg now (checkRateLimits cfg now s).2 o).1 = true) →
        ((queryTleData cfg now s o none).1 = none ∧
         (queryTleData cfg now s o none).2.request_count_hour =
           (checkRateLimits cfg now s).2.request_count_hour ∧
         (queryTleData cfg now s o none).2.request_count_minute =
           (checkRateLimits cfg now s).2.request_count_minute) ∧
        (∀ r, (queryTleData cfg now s o (some r)).2.request_count_hour =
            (checkRateLimits cfg now s).2.request_count_hour + 1 ∧
          (queryTleData cfg now s o (some r)).2.request_count_minute =
            (checkRateLimits cfg now s).2.request_count_minute + 1)) ∧
    ((checkRateLimits cfg now s).1 = true →
        isSessionValid now (checkRateLimits cfg now s).2 = false →
        (login cfg now (checkRateLimits cfg now s).2 o).1 = false →
        ∀ httpResult, (queryTleData cfg now s o httpResult).1 = none ∧
          (queryTleData cfg now s o httpResult).2.request_count_hour =
            (checkRateLimits cfg now s).2.request_count_hour ∧
          (queryTleData cfg now s o httpResult).2.request_count_minute =
            (checkRateLimits cfg now s).2.request_count_minute) := by
  refine ⟨?_, ?_, ?_⟩
  · intro httpResult hfalse
    unfold queryTleData
    simp [hfalse]
  · intro hcheck hsess
    unfold queryTleData
    simp only [hcheck, Bool.not_true, Bool.false_eq_true, if_false]
    set s1 := (checkRateLimits cfg now s).2 with hs1
    have hlr : (if isSessionValid now s1 then (true, s1)
        else login cfg now s1 o).1 = true := by
      by_cases hsv : isSessionValid now s1 = true
      · simp [hsv]
      · rcases hsess with h | h
        · exact absurd h hsv
        · simp [Bool.not_eq_true] at hsv
          simp [hsv, h]
    set lr := (if isSessionValid now s1 then (true, s1)
        else login cfg now s1 o) with hlrdef
    have hcount : lr.2.request_count_hour = s1.request_count_hour ∧
        lr.2.request_count_minute = s1.request_count_minute := by
      rw [hlrdef]
      by_cases hsv : isSessionValid now s1 = true
      · simp [hsv]
      · simp [Bool.not_eq_true] at hsv
        simp only [hsv, Bool.false_eq_true, if_false]
        exact login_counters cfg now s1 o
    simp only [hlr, Bool.not_true, Bool.false_eq_true, if_false]
    refine ⟨⟨trivial, hcount.1, hcount.2⟩, ?_⟩
    intro r
    split_ifs <;> simp [hcount.1, hcount.2]
  · intro hcheck hsv hlo httpResult
    unfold queryTleData
    simp only [hcheck, Bool.not_true, Bool.false_eq_true, if_false]
    set s1 := (checkRateLimits cfg now s).2 with hs1
    have hlr : (if isSessionValid now s1 then (true, s1)
        else login cfg now s1 o) = login cfg now s1 o := by
      simp [hsv]
    rw [hlr]
    simp only [hlo, Bool.not_false, if_true]
    exact ⟨trivial, (login_counters cfg now s1 o).1, (login_counters cfg now s1 o).2⟩

/-- Claim C10 witness: from a fresh state with credentials, a query whose
response is a 500 error still bumps both counters by one, while a query
that raises before any response leaves the result `None` and counters
untouched. -/
theorem c10_counter_increments_witness :
    (queryTleData ⟨"u", "p", 300, 30, 30⟩ 0 initialAuthState true
        (some ⟨500, ""⟩)).2.request_count_hour =
      (checkRateLimits ⟨"u", "p", 300, 30, 30⟩ 0
        initialAuthState).2.request_count_hour + 1 ∧
    (queryTleData ⟨"u", "p", 300, 30, 30⟩ 0 initialAuthState true none).1 =
      none := by
  have h := (c10_counter_increments ⟨"u", "p", 300, 30, 30⟩ 0 initialAuthState
    true).2.1 (by decide) (Or.inr (by decide))
  exact ⟨(h.2 ⟨500, ""⟩).1, h.1.1⟩
